import Mathlib

/-!
# Verification of the phriend-demo audio-capture / voice-cloning pipeline

Shallow embedding of the parts of the repository that the verified claims
are about, together with theorems settling those claims.

Sources embedded:
- `src/app/lib/audioCapture.ts` (class `VapiAudioCapture`): WAV packaging
  (`createWAVFile`), channel extraction (`extractUserChannel`), the
  per-message handler (`handleMessage`) with its ring buffer and one-shot
  voice-clone latch, the manual trigger (`manualTriggerVoiceCloning`), and
  the sample-rate heuristic (`analyzeAudioFormat`).
- `src/app/api/vapi/webhook/route.ts`: the webhook `POST` validation path,
  transcript-driven user-name / problem-description capture
  (`handleTranscript`), and the Future-Self creation race
  (`triggerFutureSelfCreation` / `createFutureSelfForSession`).
- `src/app/api/elevenlabs/clone-voice-realtime/route.ts` and the PlayHT
  iteration of the same route: size validation of the dispatched audio.
- `SessionManager.createSession`.

Machine integers are modelled as `Nat` with explicit `% 2 ^ w` where Node
buffer writes truncate; byte buffers are `List Nat`; 16-bit PCM samples are
`Int` (sample-level view of `Int16Array`).
-/

namespace Phriend

/-! ## WAV packager (`createWAVFile`, audioCapture.ts lines 971-998)

Node's `Buffer.writeUInt16LE` / `writeUInt32LE` store the little-endian
bytes of the value; they require the value to be in range (otherwise they
throw), which the theorems reflect as range hypotheses. -/

/-- Little-endian bytes written by `Buffer.writeUInt16LE`. -/
def u16le (v : Nat) : List Nat :=
  [v % 256, v / 256 % 256]

/-- Little-endian bytes written by `Buffer.writeUInt32LE`. -/
def u32le (v : Nat) : List Nat :=
  [v % 256, v / 256 % 256, v / 65536 % 256, v / 16777216 % 256]

/-- `VapiAudioCapture.createWAVFile(audioData, sampleRate)`: a 44-byte
header (RIFF / fmt / data chunks, written field by field exactly as in the
source) followed by the audio bytes.  `82,73,70,70` = "RIFF",
`87,65,86,69` = "WAVE", `102,109,116,32` = "fmt ", `100,97,116,97` =
"data". -/
def createWAVFile (audioData : List Nat) (sampleRate : Nat) : List Nat :=
  let channels := 1
  let bitsPerSample := 16
  let dataSize := audioData.length
  let header :=
    [82, 73, 70, 70] ++ u32le (36 + dataSize) ++ [87, 65, 86, 69] ++
    [102, 109, 116, 32] ++ u32le 16 ++ u16le 1 ++ u16le channels ++
    u32le sampleRate ++ u32le (sampleRate * channels * bitsPerSample / 8) ++
    u16le (channels * bitsPerSample / 8) ++ u16le bitsPerSample ++
    [100, 97, 116, 97] ++ u32le dataSize
  header ++ audioData

/-- Re-parse a 16-bit little-endian field at a byte offset. -/
def readU16LE (bs : List Nat) (off : Nat) : Nat :=
  match bs.drop off with
  | a :: b :: _ => a + 256 * b
  | _ => 0

/-- Re-parse a 32-bit little-endian field at a byte offset. -/
def readU32LE (bs : List Nat) (off : Nat) : Nat :=
  match bs.drop off with
  | a :: b :: c :: e :: _ => a + 256 * b + 65536 * c + 16777216 * e
  | _ => 0

theorem readU32LE_at (off : Nat) (pre : List Nat) {a b c e : Nat}
    {rest : List Nat} (h : pre.length = off) :
    readU32LE (pre ++ a :: b :: c :: e :: rest) off =
      a + 256 * b + 65536 * c + 16777216 * e := by
  unfold readU32LE
  rw [← h, List.drop_left]

theorem readU16LE_at (off : Nat) (pre : List Nat) {a b : Nat}
    {rest : List Nat} (h : pre.length = off) :
    readU16LE (pre ++ a :: b :: rest) off = a + 256 * b := by
  unfold readU16LE
  rw [← h, List.drop_left]

/-- The WAV output flattened to a single byte list (numeric fields written
out little-endian). -/
theorem createWAVFile_flat (d : List Nat) (r : Nat) :
    createWAVFile d r =
      82 :: 73 :: 70 :: 70 ::
      (36 + d.length) % 256 :: (36 + d.length) / 256 % 256 ::
      (36 + d.length) / 65536 % 256 :: (36 + d.length) / 16777216 % 256 ::
      87 :: 65 :: 86 :: 69 :: 102 :: 109 :: 116 :: 32 ::
      16 :: 0 :: 0 :: 0 :: 1 :: 0 :: 1 :: 0 ::
      r % 256 :: r / 256 % 256 :: r / 65536 % 256 :: r / 16777216 % 256 ::
      (r * 1 * 16 / 8) % 256 :: (r * 1 * 16 / 8) / 256 % 256 ::
      (r * 1 * 16 / 8) / 65536 % 256 :: (r * 1 * 16 / 8) / 16777216 % 256 ::
      2 :: 0 :: 16 :: 0 :: 100 :: 97 :: 116 :: 97 ::
      d.length % 256 :: d.length / 256 % 256 ::
      d.length / 65536 % 256 :: d.length / 16777216 % 256 :: d := by
  simp [createWAVFile, u16le, u32le]

/-- C1: `createWAVFile` emits a 44-byte header followed by the unmodified
input; the RIFF size field (offset 4) is `36 + L`, the data size field
(offset 40) is `L`, the format tag is 1 (PCM), channels is 1, bits per
sample is 16, the sample-rate field is `r`, the byte-rate field is
`r * 1 * 16 / 8` and the block align is `1 * 16 / 8`.  The range
hypotheses mirror `writeUInt32LE`'s requirement that the stored values fit
in 32 bits.  The function is a pure Lean function, so determinism and
absence of side effects hold by construction. -/
theorem createWAVFile_spec (d : List Nat) (r : Nat)
    (hL : 36 + d.length < 4294967296) (hr : 2 * r < 4294967296) :
    (createWAVFile d r).length = 44 + d.length ∧
    (createWAVFile d r).drop 44 = d ∧
    readU32LE (createWAVFile d r) 4 = 36 + d.length ∧
    readU32LE (createWAVFile d r) 40 = d.length ∧
    readU16LE (createWAVFile d r) 20 = 1 ∧
    readU16LE (createWAVFile d r) 22 = 1 ∧
    readU32LE (createWAVFile d r) 24 = r ∧
    readU32LE (createWAVFile d r) 28 = r * 1 * 16 / 8 ∧
    readU16LE (createWAVFile d r) 32 = 1 * 16 / 8 ∧
    readU16LE (createWAVFile d r) 34 = 16 := by
  rw [createWAVFile_flat]
  refine ⟨?_, ?_, ?_, ?_, ?_, ?_, ?_, ?_, ?_, ?_⟩
  · simp
    omega
  · rfl
  · refine (readU32LE_at 4 [82, 73, 70, 70] rfl).trans ?_
    omega
  · refine (readU32LE_at 40
      [82, 73, 70, 70,
       (36 + d.length) % 256, (36 + d.length) / 256 % 256,
       (36 + d.length) / 65536 % 256, (36 + d.length) / 16777216 % 256,
       87, 65, 86, 69, 102, 109, 116, 32,
       16, 0, 0, 0, 1, 0, 1, 0,
       r % 256, r / 256 % 256, r / 65536 % 256, r / 16777216 % 256,
       (r * 1 * 16 / 8) % 256, (r * 1 * 16 / 8) / 256 % 256,
       (r * 1 * 16 / 8) / 65536 % 256, (r * 1 * 16 / 8) / 16777216 % 256,
       2, 0, 16, 0, 100, 97, 116, 97] rfl).trans ?_
    omega
  · refine (readU16LE_at 20
      [82, 73, 70, 70,
       (36 + d.length) % 256, (36 + d.length) / 256 % 256,
       (36 + d.length) / 65536 % 256, (36 + d.length) / 16777216 % 256,
       87, 65, 86, 69, 102, 109, 116, 32,
       16, 0, 0, 0] rfl).trans ?_
    norm_num
  · refine (readU16LE_at 22
      [82, 73, 70, 70,
       (36 + d.length) % 256, (36 + d.length) / 256 % 256,
       (36 + d.length) / 65536 % 256, (36 + d.length) / 16777216 % 256,
       87, 65, 86, 69, 102, 109, 116, 32,
       16, 0, 0, 0, 1, 0] rfl).trans ?_
    norm_num
  · refine (readU32LE_at 24
      [82, 73, 70, 70,
       (36 + d.length) % 256, (36 + d.length) / 256 % 256,
       (36 + d.length) / 65536 % 256, (36 + d.length) / 16777216 % 256,
       87, 65, 86, 69, 102, 109, 116, 32,
       16, 0, 0, 0, 1, 0, 1, 0] rfl).trans ?_
    omega
  · refine (readU32LE_at 28
      [82, 73, 70, 70,
       (36 + d.length) % 256, (36 + d.length) / 256 % 256,
       (36 + d.length) / 65536 % 256, (36 + d.length) / 16777216 % 256,
       87, 65, 86, 69, 102, 109, 116, 32,
       16, 0, 0, 0, 1, 0, 1, 0,
       r % 256, r / 256 % 256, r / 65536 % 256, r / 16777216 % 256] rfl).trans ?_
    omega
  · refine (readU16LE_at 32
      [82, 73, 70, 70,
       (36 + d.length) % 256, (36 + d.length) / 256 % 256,
       (36 + d.length) / 65536 % 256, (36 + d.length) / 16777216 % 256,
       87, 65, 86, 69, 102, 109, 116, 32,
       16, 0, 0, 0, 1, 0, 1, 0,
       r % 256, r / 256 % 256, r / 65536 % 256, r / 16777216 % 256,
       (r * 1 * 16 / 8) % 256, (r * 1 * 16 / 8) / 256 % 256,
       (r * 1 * 16 / 8) / 65536 % 256,
       (r * 1 * 16 / 8) / 16777216 % 256] rfl).trans ?_
    norm_num
  · refine (readU16LE_at 34
      [82, 73, 70, 70,
       (36 + d.length) % 256, (36 + d.length) / 256 % 256,
       (36 + d.length) / 65536 % 256, (36 + d.length) / 16777216 % 256,
       87, 65, 86, 69, 102, 109, 116, 32,
       16, 0, 0, 0, 1, 0, 1, 0,
       r % 256, r / 256 % 256, r / 65536 % 256, r / 16777216 % 256,
       (r * 1 * 16 / 8) % 256, (r * 1 * 16 / 8) / 256 % 256,
       (r * 1 * 16 / 8) / 65536 % 256,
       (r * 1 * 16 / 8) / 16777216 % 256, 2, 0] rfl).trans ?_
    norm_num

/-- C1 witness: the header fields of a concrete two-byte payload at
24000 Hz. -/
theorem createWAVFile_spec_witness :
    (createWAVFile [1, 2] 24000).length = 44 + 2 ∧
    (createWAVFile [1, 2] 24000).drop 44 = [1, 2] ∧
    readU32LE (createWAVFile [1, 2] 24000) 4 = 36 + 2 ∧
    readU32LE (createWAVFile [1, 2] 24000) 40 = 2 ∧
    readU16LE (createWAVFile [1, 2] 24000) 20 = 1 ∧
    readU16LE (createWAVFile [1, 2] 24000) 22 = 1 ∧
    readU32LE (createWAVFile [1, 2] 24000) 24 = 24000 ∧
    readU32LE (createWAVFile [1, 2] 24000) 28 = 24000 * 1 * 16 / 8 ∧
    readU16LE (createWAVFile [1, 2] 24000) 32 = 1 * 16 / 8 ∧
    readU16LE (createWAVFile [1, 2] 24000) 34 = 16 := by
  have h := createWAVFile_spec [1, 2] 24000 (by norm_num) (by norm_num)
  simpa using h

/-! ## Channel extraction (`extractUserChannel`, audioCapture.ts lines 952-968)

The source views each chunk as an `Int16Array` and copies every other
sample (`for i = 0; i < samples.length; i += 2`) into a fresh array, then
concatenates the per-chunk results.  We model chunks at the sample level:
a chunk is a `List Int` of 16-bit samples. -/

/-- The samples kept by the loop `userSamples[i / 2] = samples[i]` for
`i = 0, 2, 4, ...`: the even-indexed samples. -/
def evenSamples : List Int → List Int
  | [] => []
  | [a] => [a]
  | a :: _ :: rest => a :: evenSamples rest

/-- `VapiAudioCapture.extractUserChannel(audioChunks)`: extract channel 0
from each chunk, then concatenate (`Buffer.concat(extractedChunks)`). -/
def extractUserChannel (audioChunks : List (List Int)) : List Int :=
  (audioChunks.map evenSamples).flatten

theorem evenSamples_append (xs ys : List Int) (h : Even xs.length) :
    evenSamples (xs ++ ys) = evenSamples xs ++ evenSamples ys := by
  match xs with
  | [] => simp [evenSamples]
  | [a] => simp at h
  | a :: b :: rest =>
      have h' : Even rest.length := by
        simp only [List.length_cons] at h
        rcases h with ⟨k, hk⟩
        exact ⟨k - 1, by omega⟩
      calc evenSamples ((a :: b :: rest) ++ ys)
          = a :: evenSamples (rest ++ ys) := rfl
        _ = a :: (evenSamples rest ++ evenSamples ys) := by
            rw [evenSamples_append rest ys h']
        _ = evenSamples (a :: b :: rest) ++ evenSamples ys := rfl

theorem evenSamples_length (xs : List Int) :
    (evenSamples xs).length = (xs.length + 1) / 2 := by
  match xs with
  | [] => simp [evenSamples]
  | [a] => simp [evenSamples]
  | a :: b :: rest =>
      simp only [evenSamples, List.length_cons, evenSamples_length rest]
      omega

/-- C2 counterexample: applying the mono-selection rule to its own output
does not return the same samples.  `extractUserChannel [[1, 2, 3, 4]]`
yields `[1, 3]`; feeding that back through the even-index selection yields
`[1]`, so the extraction is not idempotent. -/
theorem extractUserChannel_not_idempotent :
    extractUserChannel [extractUserChannel [[1, 2, 3, 4]]] ≠
      extractUserChannel [[1, 2, 3, 4]] := by
  decide

/-- C2 (amended): for chunks of interleaved dual-channel 16-bit PCM (an
even number of samples per chunk, i.e. whole sample pairs), extraction
returns exactly the even-indexed input samples in order — `N` mono samples
for `N` input sample pairs.  The function is pure, hence deterministic;
the idempotence clause of the original claim is dropped (see the
counterexample). -/
theorem flatten_length_even (audioChunks : List (List Int))
    (h : ∀ c ∈ audioChunks, Even c.length) :
    Even audioChunks.flatten.length := by
  induction audioChunks with
  | nil => simp
  | cons c cs ih =>
      have hc : Even c.length := h c (List.mem_cons_self c cs)
      have ih' := ih fun x hx => h x (List.mem_cons_of_mem c hx)
      simp only [List.flatten_cons, List.length_append]
      exact hc.add ih'

theorem extractUserChannel_spec (audioChunks : List (List Int))
    (h : ∀ c ∈ audioChunks, Even c.length) :
    extractUserChannel audioChunks = evenSamples audioChunks.flatten ∧
    (extractUserChannel audioChunks).length = audioChunks.flatten.length / 2 := by
  have hflat : extractUserChannel audioChunks = evenSamples audioChunks.flatten := by
    induction audioChunks with
    | nil => simp [extractUserChannel, evenSamples]
    | cons c cs ih =>
        have hc : Even c.length := h c (List.mem_cons_self c cs)
        have ih' := ih fun x hx => h x (List.mem_cons_of_mem c hx)
        simp only [extractUserChannel, List.map_cons, List.flatten_cons] at *
        rw [ih', evenSamples_append c cs.flatten hc]
  refine ⟨hflat, ?_⟩
  rw [hflat, evenSamples_length]
  rcases flatten_length_even audioChunks h with ⟨k, hk⟩
  omega

/-- C2 witness: two stereo chunks holding three sample pairs in total. -/
theorem extractUserChannel_spec_witness :
    extractUserChannel [[1, 2, 3, 4], [5, 6]] =
      evenSamples (List.flatten [[1, 2, 3, 4], [5, 6]]) ∧
    (extractUserChannel [[1, 2, 3, 4], [5, 6]]).length = 3 := by
  have h := extractUserChannel_spec [[1, 2, 3, 4], [5, 6]] (by decide)
  simpa using h

/-! ## Capture session: `handleMessage` (audioCapture.ts lines 754-792) and
`manualTriggerVoiceCloning` (lines 1021-1030)

Binary WebSocket frames drive `handleMessage`: counters are bumped, the
start time is recorded on the first frame, the chunk is pushed into the
bounded buffer, and the time-based one-shot voice-clone check runs.  The
manual trigger can interleave with frames.  Chunks are abstracted to `Nat`
identifiers; times are milliseconds (`Date.now()` values) as `Nat`; the
count of `triggerRealTimeVoiceCloning` invocations is tracked as the ghost
field `triggerCount`.  Event handlers run atomically on the Node event
loop (`triggerRealTimeVoiceCloning` contains no `await`). -/

/-- `this.minSecondsForCloning` (audioCapture.ts line 659). -/
def minSecondsForCloning : Nat := 30

/-- One buffer update of `handleMessage`: push if below capacity,
otherwise `shift()` the oldest chunk out and push. -/
def pushChunk (maxBufferSize : Nat) (buf : List Nat) (c : Nat) : List Nat :=
  if buf.length < maxBufferSize then buf ++ [c] else buf.tail ++ [c]

/-- An event hitting the capture session: a binary audio frame arriving at
time `now`, or a call to `manualTriggerVoiceCloning`. -/
inductive CapEvent where
  | binary (now : Nat) (chunk : Nat)
  | manual
deriving DecidableEq

structure CapState where
  voiceCloneTriggered : Bool
  audioStartTime : Option Nat
  audioBuffer : List Nat
  audioChunksReceived : Nat
  triggerCount : Nat
deriving DecidableEq

/-- The fields of a fresh `VapiAudioCapture`. -/
def initCapState : CapState :=
  { voiceCloneTriggered := false, audioStartTime := none, audioBuffer := [],
    audioChunksReceived := 0, triggerCount := 0 }

/-- One step of the capture session.  For a binary frame this is
`handleMessage`'s audio branch: bump the counter, set `audioStartTime` on
the first chunk, push into the buffer, then run the time-based one-shot
check (`!voiceCloneTriggered && audioStartTime` and
`secondsElapsed >= minSecondsForCloning`).  For the manual trigger it is
`manualTriggerVoiceCloning`: fire only if not yet triggered and the buffer
is non-empty. -/
def capStep (maxBufferSize : Nat) (s : CapState) (e : CapEvent) : CapState :=
  match e with
  | .binary now c =>
      let t0 := s.audioStartTime.getD now
      let buf := pushChunk maxBufferSize s.audioBuffer c
      if ¬s.voiceCloneTriggered ∧ minSecondsForCloning ≤ (now - t0) / 1000 then
        { voiceCloneTriggered := true, audioStartTime := some t0,
          audioBuffer := buf, audioChunksReceived := s.audioChunksReceived + 1,
          triggerCount := s.triggerCount + 1 }
      else
        { voiceCloneTriggered := s.voiceCloneTriggered,
          audioStartTime := some t0, audioBuffer := buf,
          audioChunksReceived := s.audioChunksReceived + 1,
          triggerCount := s.triggerCount }
  | .manual =>
      if ¬s.voiceCloneTriggered ∧ 0 < s.audioBuffer.length then
        { s with voiceCloneTriggered := true,
                 triggerCount := s.triggerCount + 1 }
      else s

/-- A whole capture session: fold the events over the fresh state. -/
def runCap (maxBufferSize : Nat) (es : List CapEvent) : CapState :=
  es.foldl (capStep maxBufferSize) initCapState

theorem capStep_count (maxBufferSize : Nat) (s : CapState) (e : CapEvent)
    (h : s.triggerCount = if s.voiceCloneTriggered then 1 else 0) :
    (capStep maxBufferSize s e).triggerCount =
      if (capStep maxBufferSize s e).voiceCloneTriggered then 1 else 0 := by
  cases e <;> simp only [capStep] <;> split <;> simp_all

theorem capStep_mono (maxBufferSize : Nat) (s : CapState) (e : CapEvent)
    (h : s.voiceCloneTriggered = true) :
    (capStep maxBufferSize s e).voiceCloneTriggered = true := by
  cases e <;> simp only [capStep] <;> split <;> simp_all

theorem foldl_cap_count (maxBufferSize : Nat) (es : List CapEvent)
    (s : CapState)
    (h : s.triggerCount = if s.voiceCloneTriggered then 1 else 0) :
    (es.foldl (capStep maxBufferSize) s).triggerCount =
      if (es.foldl (capStep maxBufferSize) s).voiceCloneTriggered then 1
      else 0 := by
  induction es generalizing s with
  | nil => exact h
  | cons e es ih => exact ih _ (capStep_count maxBufferSize s e h)

theorem foldl_cap_mono (maxBufferSize : Nat) (es : List CapEvent)
    (s : CapState) (h : s.voiceCloneTriggered = true) :
    (es.foldl (capStep maxBufferSize) s).voiceCloneTriggered = true := by
  induction es generalizing s with
  | nil => exact h
  | cons e es ih => exact ih _ (capStep_mono maxBufferSize s e h)

/-- C3: per capture session the clone extraction fires at most once: the
number of `triggerRealTimeVoiceCloning` invocations always equals 1 when
the `voiceCloneTriggered` latch is set and 0 otherwise (hence is at most
one); and once some frame arrives with the elapsed-time threshold crossed,
it is exactly one from then on, no matter how many later frames re-run the
check and no matter how manual triggers interleave. -/
theorem cloneTrigger_once (maxBufferSize : Nat) :
    (∀ es : List CapEvent, (runCap maxBufferSize es).triggerCount ≤ 1) ∧
    (∀ (es₁ : List CapEvent) (now c : Nat) (es₂ : List CapEvent) (t0 : Nat),
      (runCap maxBufferSize es₁).audioStartTime = some t0 →
      minSecondsForCloning ≤ (now - t0) / 1000 →
      (runCap maxBufferSize (es₁ ++ CapEvent.binary now c :: es₂)).triggerCount
          = 1 ∧
      (runCap maxBufferSize
          (es₁ ++ CapEvent.binary now c :: es₂)).voiceCloneTriggered = true) := by
  have hcount : ∀ es : List CapEvent,
      (runCap maxBufferSize es).triggerCount =
        if (runCap maxBufferSize es).voiceCloneTriggered then 1 else 0 :=
    fun es => foldl_cap_count maxBufferSize es initCapState rfl
  constructor
  · intro es
    rw [hcount es]
    split <;> omega
  · intro es₁ now c es₂ t0 hstart hth
    have hrun : runCap maxBufferSize (es₁ ++ CapEvent.binary now c :: es₂) =
        es₂.foldl (capStep maxBufferSize)
          (capStep maxBufferSize (runCap maxBufferSize es₁)
            (CapEvent.binary now c)) := by
      simp [runCap, List.foldl_append]
    have hstep : (capStep maxBufferSize (runCap maxBufferSize es₁)
        (CapEvent.binary now c)).voiceCloneTriggered = true := by
      by_cases ht : (runCap maxBufferSize es₁).voiceCloneTriggered = true
      · exact capStep_mono maxBufferSize _ _ ht
      · simp only [capStep, hstart, Option.getD_some]
        rw [if_pos]
        exact ⟨by simp_all, hth⟩
    have htrig : (runCap maxBufferSize
        (es₁ ++ CapEvent.binary now c :: es₂)).voiceCloneTriggered = true := by
      rw [hrun]
      exact foldl_cap_mono maxBufferSize es₂ _ hstep
    refine ⟨?_, htrig⟩
    rw [hcount _, htrig]
    simp

/-- C3 witness: a session whose second frame arrives 39 seconds after the
first; a later frame and a manual trigger are no-ops. -/
theorem cloneTrigger_once_witness :
    (runCap 1000 [CapEvent.binary 5 7]).triggerCount ≤ 1 ∧
    (runCap 1000 ([CapEvent.binary 5 7] ++ CapEvent.binary 40000 8 ::
        [CapEvent.binary 60000 9, CapEvent.manual])).triggerCount = 1 ∧
    (runCap 1000 ([CapEvent.binary 5 7] ++ CapEvent.binary 40000 8 ::
        [CapEvent.binary 60000 9, CapEvent.manual])).voiceCloneTriggered
      = true := by
  have h1 := (cloneTrigger_once 1000).1 [CapEvent.binary 5 7]
  have h2 := (cloneTrigger_once 1000).2 [CapEvent.binary 5 7] 40000 8
    [CapEvent.binary 60000 9, CapEvent.manual] 5 (by decide) (by decide)
  exact ⟨h1, h2.1, h2.2⟩

/-! ## Ring buffer bound (`handleMessage`, audioCapture.ts lines 769-776) -/

/-- The chunks of the binary frames of an event sequence, in arrival
order. -/
def binaryChunks (es : List CapEvent) : List Nat :=
  es.filterMap fun e =>
    match e with
    | .binary _ c => some c
    | .manual => none

theorem capStep_buffer (maxBufferSize : Nat) (s : CapState) (now c : Nat) :
    (capStep maxBufferSize s (CapEvent.binary now c)).audioBuffer =
      pushChunk maxBufferSize s.audioBuffer c := by
  simp only [capStep]
  split <;> rfl

theorem foldl_cap_buffer (maxBufferSize : Nat) (es : List CapEvent)
    (s : CapState) :
    (es.foldl (capStep maxBufferSize) s).audioBuffer =
      (binaryChunks es).foldl (pushChunk maxBufferSize) s.audioBuffer := by
  induction es generalizing s with
  | nil => rfl
  | cons e es ih =>
      cases e with
      | binary now c =>
          simp only [List.foldl_cons, binaryChunks, List.filterMap_cons]
          rw [ih, capStep_buffer]
          rfl
      | manual =>
          simp only [List.foldl_cons, binaryChunks, List.filterMap_cons]
          rw [ih]
          have : (capStep maxBufferSize s CapEvent.manual).audioBuffer =
              s.audioBuffer := by
            simp only [capStep]
            split <;> rfl
          rw [this]
          rfl

theorem foldl_pushChunk (maxBufferSize : Nat) (hm : 1 ≤ maxBufferSize) :
    ∀ (cs buf : List Nat), buf.length ≤ maxBufferSize →
      cs.foldl (pushChunk maxBufferSize) buf =
        (buf ++ cs).drop (buf.length + cs.length - maxBufferSize)
  | [], buf, hb => by
      simp only [List.foldl_nil, List.append_nil, List.length_nil,
        Nat.add_zero]
      have h0 : buf.length - maxBufferSize = 0 := by omega
      rw [h0, List.drop_zero]
  | c :: cs, buf, hb => by
      rw [List.foldl_cons]
      by_cases hlt : buf.length < maxBufferSize
      · have hpush : pushChunk maxBufferSize buf c = buf ++ [c] := by
          unfold pushChunk
          rw [if_pos hlt]
        rw [hpush,
          foldl_pushChunk maxBufferSize hm cs (buf ++ [c]) (by simp; omega)]
        have hidx : (buf ++ [c]).length + cs.length - maxBufferSize =
            buf.length + (c :: cs).length - maxBufferSize := by
          simp
          omega
        rw [hidx, List.append_assoc]
        rfl
      · have heq : buf.length = maxBufferSize := by omega
        cases buf with
        | nil =>
            simp only [List.length_nil] at heq
            omega
        | cons b buf' =>
            have hpush : pushChunk maxBufferSize (b :: buf') c =
                buf' ++ [c] := by
              unfold pushChunk
              rw [if_neg hlt]
              rfl
            rw [hpush, foldl_pushChunk maxBufferSize hm cs (buf' ++ [c])
              (by simp only [List.length_cons] at heq; simp; omega)]
            have hidx1 : (buf' ++ [c]).length + cs.length - maxBufferSize =
                cs.length := by
              simp only [List.length_cons] at heq
              simp
              omega
            have hidx2 : (b :: buf').length + (c :: cs).length -
                maxBufferSize = cs.length + 1 := by
              simp only [List.length_cons] at heq
              simp
              omega
            rw [hidx1, hidx2, List.append_assoc]
            rfl

/-- C4 counterexample: the claim quantifies over every configured capacity,
but with `maxBufferSize = 0` one pushed frame makes the buffer length 1:
`audioBuffer.length < maxBufferSize` is false, so the handler does
`shift()` (a no-op on an empty array) followed by `push`, exceeding the
capacity. -/
theorem ringBuffer_cap_zero_counterexample :
    ¬ (runCap 0 [CapEvent.binary 0 7]).audioBuffer.length ≤ 0 := by
  decide

/-- C4 (amended): for every positive configured capacity and every event
sequence, the buffer is exactly the most recent `maxBufferSize` pushed
chunks in arrival order (oldest evicted first), so its length never
exceeds `maxBufferSize`; in particular after 1100 pushed chunks at
capacity 1000 the buffer holds exactly the last 1000. -/
theorem ringBuffer_spec (maxBufferSize : Nat) (hm : 1 ≤ maxBufferSize)
    (es : List CapEvent) :
    (runCap maxBufferSize es).audioBuffer =
      (binaryChunks es).drop ((binaryChunks es).length - maxBufferSize) ∧
    (runCap maxBufferSize es).audioBuffer.length ≤ maxBufferSize ∧
    (runCap 1000 ((List.range 1100).map fun i =>
        CapEvent.binary 0 i)).audioBuffer = (List.range 1100).drop 100 := by
  have hchar : ∀ (m : Nat), 1 ≤ m → ∀ es' : List CapEvent,
      (runCap m es').audioBuffer =
        (binaryChunks es').drop ((binaryChunks es').length - m) := by
    intro m hm' es'
    have h1 : (runCap m es').audioBuffer =
        (binaryChunks es').foldl (pushChunk m) [] := by
      have := foldl_cap_buffer m es' initCapState
      simpa [runCap, initCapState] using this
    rw [h1, foldl_pushChunk m hm' (binaryChunks es') [] (by simp)]
    simp
  refine ⟨hchar maxBufferSize hm es, ?_, ?_⟩
  · rw [hchar maxBufferSize hm es]
    simp
    omega
  · have hb : binaryChunks ((List.range 1100).map fun i =>
        CapEvent.binary 0 i) = List.range 1100 := by
      generalize List.range 1100 = l
      induction l with
      | nil => rfl
      | cons x l ih => simp_all [binaryChunks]
    rw [hchar 1000 (by norm_num) _, hb]
    norm_num

/-- C4 witness: capacity 2, three pushed chunks, the oldest is evicted. -/
theorem ringBuffer_spec_witness :
    (runCap 2 [CapEvent.binary 0 5, CapEvent.binary 1 6,
      CapEvent.binary 2 7]).audioBuffer = [6, 7] := by
  have h := (ringBuffer_spec 2 (by norm_num) [CapEvent.binary 0 5,
    CapEvent.binary 1 6, CapEvent.binary 2 7]).1
  rw [h]
  decide

/-! ## Future-Self creation race (webhook/route.ts lines 729-808)

`triggerFutureSelfCreation` reads the session and returns when
`session.futureSelfCreated` is already set; with the voice clone ready it
calls `createFutureSelfForSession`, which `await`s
`createFutureSelfAssistant(session)` (an outbound HTTP request that
creates a provider-side assistant) and only *after* that sets
`futureSelfAssistantId` and `futureSelfCreated` on the session.

On the Node event loop each trigger path (the voice-clone-complete
callback and the 30 s fallback timer) therefore decomposes into atomic
segments separated by `await`: (1) `check` — the `futureSelfCreated` and
clone-readiness reads, up to issuing the assistant-creation request,
(2) `create` — the provider request is submitted (an assistant is
created), after which the continuation yields, (3) `commit` — the
response arrives and the session is updated (`futureSelfCreated := true`,
assistant id stored).  A schedule is the interleaving of the two paths'
segments. -/

inductive PersonaAct where
  | check
  | create
  | commit
deriving DecidableEq

/-- The atomic segments of one trigger path (clone already completed, so
the polling branch is not entered). -/
def personaProgram : List PersonaAct := [.check, .create, .commit]

/-- Shared session state plus each path's remaining program.  `task0` is
the voice-clone-complete path, `task1` the fallback-timer path;
`createdAssistants` counts provider-side assistant creations. -/
structure PersonaState where
  futureSelfCreated : Bool
  futureSelfAssistantId : Option Nat
  createdAssistants : Nat
  task0 : List PersonaAct
  task1 : List PersonaAct
deriving DecidableEq

def initPersonaState : PersonaState :=
  { futureSelfCreated := false, futureSelfAssistantId := none,
    createdAssistants := 0, task0 := personaProgram,
    task1 := personaProgram }

def setTask (s : PersonaState) (which : Bool) (l : List PersonaAct) :
    PersonaState :=
  if which then { s with task1 := l } else { s with task0 := l }

/-- Run the next atomic segment of the selected path.  `check` aborts the
path when the `futureSelfCreated` flag is already set (the early
`return`); `create` performs the awaited `createFutureSelfAssistant`
request; `commit` stores the assistant id and sets the flag
(`sessionManager.updateSession`). -/
def personaStep (s : PersonaState) (which : Bool) : PersonaState :=
  match (if which then s.task1 else s.task0) with
  | [] => s
  | PersonaAct.check :: rest =>
      if s.futureSelfCreated then setTask s which [] else setTask s which rest
  | PersonaAct.create :: rest =>
      setTask { s with createdAssistants := s.createdAssistants + 1 }
        which rest
  | PersonaAct.commit :: rest =>
      setTask { s with futureSelfCreated := true,
                       futureSelfAssistantId :=
                         some (if which then 1 else 0) } which rest

/-- Run both trigger paths under a given interleaving schedule. -/
def runPersona (sched : List Bool) : PersonaState :=
  sched.foldl personaStep initPersonaState

/-- C5: the Future-Self creation latch does NOT make persona creation
at-most-once under interleaved async continuations.  When the
clone-complete path and the fallback-timer path both pass the
`futureSelfCreated` check before either one's awaited
`createFutureSelfAssistant` call returns (schedule: path-0 check, path-1
check, path-0 create+commit, path-1 create+commit), two provider-side
assistants are created — the flag is set only after the awaited call, so
the second check still sees it unset.  Exactly one assistant id ends up
stored (last writer wins), and a fully sequential schedule creates only
one assistant, confirming the latch works without interleaving. -/
theorem personaCreation_race :
    (runPersona [false, true, false, false, true, true]).createdAssistants
        = 2 ∧
    (runPersona [false, true, false, false, true,
        true]).futureSelfAssistantId = some 1 ∧
    (runPersona [false, false, false, true, true, true]).createdAssistants
        = 1 := by
  decide

/-! ## Sessions (`types/index.ts` `UserSession`, `SessionManager`, and the
transcript handlers of webhook/route.ts)

`UserSession` keeps the fields relevant to the claims; `createdAt` /
`startTime` are clock readings passed in as `now` (the source reads
`new Date()` / `Date.now()`); timer handles are omitted (not observable
state).  A transcript role is `true` for `'user'`, `false` for
`'assistant'`. -/

structure TranscriptEntry where
  role : Bool
  text : String
  timestamp : Nat
deriving DecidableEq

structure UserSession where
  id : String
  callId : Option String
  status : String
  callState : String
  createdAt : Nat
  startTime : Nat
  transcripts : List TranscriptEntry
  userName : Option String
  problemDescription : Option String
  clonedVoiceId : Option String
  voiceCloneCompleted : Bool
  futureSelfAssistantId : Option String
  futureSelfCreated : Bool
deriving DecidableEq

/-- `String.prototype.trim()`: strip whitespace from both ends.  Defined
structurally over the character list (Lean's own `String.trim` is
implemented by well-founded recursion on byte positions, which a witness
cannot evaluate by kernel reduction). -/
def strTrim (s : String) : String :=
  ⟨((s.data.dropWhile Char.isWhitespace).reverse.dropWhile
      Char.isWhitespace).reverse⟩

/-- JavaScript falsiness of an optional string field: `undefined` and the
empty string are falsy (`!session.userName`). -/
def isFalsyStr : Option String → Bool
  | none => true
  | some s => s.length == 0

/-! ### Transcript-driven capture (`handleTranscript`, webhook/route.ts
lines 869-918)

The regular expression
`/my name is (\w+)|i'm (\w+)|i am (\w+)|call me (\w+)/i` together with the
capture-group selection is abstracted as a matcher
`nameMatch : String → Option String`; a JavaScript regex engine is not
embeddable here, and the claim holds for every matcher whose captured
group is a non-empty word (which `(\w+)` guarantees). -/

/-- The transcript-append block: skip if an entry with the same role and
text exists, else push. -/
def addTranscript (s : UserSession) (role : Bool) (transcript : String)
    (now : Nat) : UserSession :=
  if s.transcripts.any fun t => t.text == transcript && t.role == role then s
  else { s with transcripts :=
          s.transcripts ++ [⟨role, transcript, now⟩] }

/-- The name-capture block:
`if (!session.userName && transcript.length > 0)` then match the name
pattern and store the captured group. -/
def captureName (nameMatch : String → Option String) (s : UserSession)
    (transcript : String) : UserSession :=
  if isFalsyStr s.userName ∧ 0 < transcript.length then
    match nameMatch transcript with
    | some n => { s with userName := some n }
    | none => s
  else s

/-- The problem-description block:
`if (!session.problemDescription && transcript.length > 50)`. -/
def captureProblem (s : UserSession) (transcript : String) : UserSession :=
  if isFalsyStr s.problemDescription ∧ 50 < transcript.length then
    { s with problemDescription := some transcript }
  else s

/-- `handleTranscript(call, data)` restricted to one session: early return
on an empty (post-trim) transcript, transcript append with (role, text)
de-duplication, then for user messages the name and problem-description
capture blocks, in source order. -/
def handleTranscript (nameMatch : String → Option String) (s : UserSession)
    (role : Bool) (rawTranscript : String) (now : Nat) : UserSession :=
  if (strTrim rawTranscript).length = 0 then s
  else
    let transcript := (strTrim rawTranscript)
    let s1 := addTranscript s role transcript now
    if role then captureProblem (captureName nameMatch s1 transcript)
      transcript
    else s1

/-- A sequence of transcript events (role, raw text, timestamp) folded
over a session. -/
def runTranscripts (nameMatch : String → Option String) (s : UserSession)
    (evs : List (Bool × String × Nat)) : UserSession :=
  evs.foldl (fun st ev => handleTranscript nameMatch st ev.1 ev.2.1 ev.2.2) s

/-- The captured group of the first user utterance matching the name
pattern. -/
def firstNameMatch (nameMatch : String → Option String) :
    List (Bool × String × Nat) → Option String
  | [] => none
  | (role, text, _) :: rest =>
      if role = true ∧ 0 < (strTrim text).length then
        match nameMatch (strTrim text) with
        | some n => some n
        | none => firstNameMatch nameMatch rest
      else firstNameMatch nameMatch rest

/-- The first user utterance longer than the 50-character threshold. -/
def firstProblem : List (Bool × String × Nat) → Option String
  | [] => none
  | (role, text, _) :: rest =>
      if role = true ∧ 50 < (strTrim text).length then some (strTrim text)
      else firstProblem rest

theorem addTranscript_userName (s : UserSession) (role : Bool)
    (transcript : String) (now : Nat) :
    (addTranscript s role transcript now).userName = s.userName := by
  unfold addTranscript
  split <;> rfl

theorem addTranscript_problem (s : UserSession) (role : Bool)
    (transcript : String) (now : Nat) :
    (addTranscript s role transcript now).problemDescription =
      s.problemDescription := by
  unfold addTranscript
  split <;> rfl

theorem captureName_userName (f : String → Option String) (s : UserSession)
    (transcript : String) :
    (captureName f s transcript).userName =
      if isFalsyStr s.userName = true ∧ 0 < transcript.length then
        match f transcript with
        | some n => some n
        | none => s.userName
      else s.userName := by
  by_cases h : isFalsyStr s.userName = true ∧ 0 < transcript.length
  · rw [captureName, if_pos h, if_pos h]
    cases f transcript <;> rfl
  · rw [captureName, if_neg h, if_neg h]

theorem captureName_problem (f : String → Option String) (s : UserSession)
    (transcript : String) :
    (captureName f s transcript).problemDescription =
      s.problemDescription := by
  unfold captureName
  split
  · cases f transcript <;> rfl
  · rfl

theorem captureProblem_userName (s : UserSession) (transcript : String) :
    (captureProblem s transcript).userName = s.userName := by
  unfold captureProblem
  split <;> rfl

theorem captureProblem_problem (s : UserSession) (transcript : String) :
    (captureProblem s transcript).problemDescription =
      if isFalsyStr s.problemDescription = true ∧ 50 < transcript.length then
        some transcript
      else s.problemDescription := by
  by_cases h : isFalsyStr s.problemDescription = true ∧ 50 < transcript.length
  · rw [captureProblem, if_pos h, if_pos h]
  · rw [captureProblem, if_neg h, if_neg h]

theorem handleTranscript_userName (f : String → Option String)
    (s : UserSession) (role : Bool) (text : String) (now : Nat) :
    (handleTranscript f s role text now).userName =
      if role = true ∧ 0 < (strTrim text).length ∧ isFalsyStr s.userName = true
      then
        match f (strTrim text) with
        | some n => some n
        | none => s.userName
      else s.userName := by
  simp only [handleTranscript]
  by_cases hε : (strTrim text).length = 0
  · rw [if_pos hε, if_neg (by rintro ⟨-, h2, -⟩; omega)]
  · rw [if_neg hε]
    by_cases hrole : role = true
    · rw [if_pos hrole]
      rw [captureProblem_userName, captureName_userName,
        addTranscript_userName]
      by_cases hfal : isFalsyStr s.userName = true
      · rw [if_pos ⟨hfal, by omega⟩, if_pos ⟨hrole, by omega, hfal⟩]
      · rw [if_neg (by tauto), if_neg (by tauto)]
    · rw [if_neg hrole, addTranscript_userName, if_neg (by tauto)]

theorem handleTranscript_problem (f : String → Option String)
    (s : UserSession) (role : Bool) (text : String) (now : Nat) :
    (handleTranscript f s role text now).problemDescription =
      if role = true ∧ 50 < (strTrim text).length ∧
          isFalsyStr s.problemDescription = true then some (strTrim text)
      else s.problemDescription := by
  simp only [handleTranscript]
  by_cases hε : (strTrim text).length = 0
  · rw [if_pos hε, if_neg (by rintro ⟨-, h2, -⟩; omega)]
  · rw [if_neg hε]
    by_cases hrole : role = true
    · rw [if_pos hrole]
      rw [captureProblem_problem, captureName_problem, addTranscript_problem]
      by_cases hfal : isFalsyStr s.problemDescription = true
      · by_cases hlen : 50 < (strTrim text).length
        · rw [if_pos ⟨hfal, hlen⟩, if_pos ⟨hrole, hlen, hfal⟩]
        · rw [if_neg (by tauto), if_neg (by tauto)]
      · rw [if_neg (by tauto), if_neg (by tauto)]
    · rw [if_neg hrole, addTranscript_problem, if_neg (by tauto)]

theorem runTranscripts_userName (f : String → Option String)
    (hf : ∀ t n, f t = some n → 0 < n.length)
    (evs : List (Bool × String × Nat)) :
    ∀ s : UserSession,
    (runTranscripts f s evs).userName =
      if isFalsyStr s.userName = true then
        match firstNameMatch f evs with
        | some n => some n
        | none => s.userName
      else s.userName := by
  induction evs with
  | nil =>
      intro s
      by_cases h : isFalsyStr s.userName = true <;>
        simp [runTranscripts, firstNameMatch, h]
  | cons ev rest ih =>
      intro s
      obtain ⟨role, text, ts⟩ := ev
      have hrun : runTranscripts f s ((role, text, ts) :: rest) =
          runTranscripts f (handleTranscript f s role text ts) rest := rfl
      rw [hrun, ih, handleTranscript_userName]
      by_cases hrole : role = true
      · by_cases hε : 0 < (strTrim text).length
        · by_cases hfal : isFalsyStr s.userName = true
          · cases hft : f (strTrim text) with
            | some n =>
                have hn := hf _ _ hft
                have hfn : isFalsyStr (some n) = false := by
                  simp [isFalsyStr]
                  omega
                simp [firstNameMatch, hrole, hε, hfal, hft, hfn]
            | none => simp [firstNameMatch, hrole, hε, hfal, hft]
          · simp [firstNameMatch, hrole, hε, hfal]
        · simp [firstNameMatch, hrole, hε]
      · simp [firstNameMatch, hrole]

theorem runTranscripts_problem (f : String → Option String)
    (evs : List (Bool × String × Nat)) :
    ∀ s : UserSession,
    (runTranscripts f s evs).problemDescription =
      if isFalsyStr s.problemDescription = true then
        match firstProblem evs with
        | some p => some p
        | none => s.problemDescription
      else s.problemDescription := by
  induction evs with
  | nil =>
      intro s
      by_cases h : isFalsyStr s.problemDescription = true <;>
        simp [runTranscripts, firstProblem, h]
  | cons ev rest ih =>
      intro s
      obtain ⟨role, text, ts⟩ := ev
      have hrun : runTranscripts f s ((role, text, ts) :: rest) =
          runTranscripts f (handleTranscript f s role text ts) rest := rfl
      rw [hrun, ih, handleTranscript_problem]
      by_cases hrole : role = true
      · by_cases hε : 50 < (strTrim text).length
        · by_cases hfal : isFalsyStr s.problemDescription = true
          · have hfp : isFalsyStr (some (strTrim text)) = false := by
              simp [isFalsyStr]
              omega
            simp [firstProblem, hrole, hε, hfal, hfp]
          · simp [firstProblem, hrole, hε, hfal]
        · simp [firstProblem, hrole, hε]
      · simp [firstProblem, hrole]

theorem transcriptCapture_firstMatchWins (f : String → Option String)
    (hf : ∀ t n, f t = some n → 0 < n.length) (s : UserSession)
    (evs : List (Bool × String × Nat)) (n p : String) :
    (s.userName = some n → 0 < n.length →
      (runTranscripts f s evs).userName = some n) ∧
    (s.problemDescription = some p → 0 < p.length →
      (runTranscripts f s evs).problemDescription = some p) ∧
    (s.userName = none →
      (runTranscripts f s evs).userName = firstNameMatch f evs) ∧
    (s.problemDescription = none →
      (runTranscripts f s evs).problemDescription = firstProblem evs) := by
  refine ⟨?_, ?_, ?_, ?_⟩
  · intro hu hn
    rw [runTranscripts_userName f hf evs s, hu]
    rw [if_neg (by simp [isFalsyStr]; omega)]
  · intro hp hplen
    rw [runTranscripts_problem f evs s, hp]
    rw [if_neg (by simp [isFalsyStr]; omega)]
  · intro hu
    rw [runTranscripts_userName f hf evs s, hu]
    cases hF : firstNameMatch f evs <;> simp [isFalsyStr, hF]
  · intro hp
    rw [runTranscripts_problem f evs s, hp]
    cases hF : firstProblem evs <;> simp [isFalsyStr, hF]

/-- A concrete name matcher used by the C6 witness: recognises two
conflicting "my name is X" utterances. -/
def nameMatchTest (t : String) : Option String :=
  if t = "my name is alice" then some "alice"
  else if t = "my name is bob" then some "bob"
  else none

/-! ## `SessionManager.createSession` (lib/sessionManager iteration,
lines 16-32)

The store (`Map<string, UserSession>`) is modelled as a lookup function;
`Map.set` is pointwise functional update. -/

/-- The session object literal built by `createSession`; optional fields
not present in the literal (`userName`, `problemDescription`,
`clonedVoiceId`, `futureSelfAssistantId`) are `undefined`. -/
def initialUserSession (sessionId : String) (callId : Option String)
    (now : Nat) : UserSession :=
  { id := sessionId, callId := callId, status := "counseling",
    callState := "onboarding", createdAt := now, startTime := now,
    transcripts := [], userName := none, problemDescription := none,
    clonedVoiceId := none, voiceCloneCompleted := false,
    futureSelfAssistantId := none, futureSelfCreated := false }

/-- `SessionManager.createSession(sessionId, callId)`: build the initial
session, `this.sessions.set(sessionId, session)`, return it. -/
def createSession (store : String → Option UserSession)
    (sessionId : String) (callId : Option String) (now : Nat) :
    UserSession × (String → Option UserSession) :=
  let session := initialUserSession sessionId callId now
  (session, fun k => if k = sessionId then some session else store k)

/-- C6 witness: two conflicting "my name is X" utterances — the first one
wins. -/
theorem transcriptCapture_firstMatchWins_witness :
    (runTranscripts nameMatchTest (initialUserSession "s1" none 0)
        [(true, "my name is alice", 0), (true, "my name is bob", 1)]).userName
      = some "alice" := by
  have hf : ∀ t m, nameMatchTest t = some m → 0 < m.length := by
    intro t m hm
    unfold nameMatchTest at hm
    split_ifs at hm
    · injection hm with h
      rw [← h]
      decide
    · injection hm with h
      rw [← h]
      decide
  have h := (transcriptCapture_firstMatchWins nameMatchTest hf
    (initialUserSession "s1" none 0)
    [(true, "my name is alice", 0), (true, "my name is bob", 1)]
    "x" "y").2.2.1 rfl
  rw [h]
  decide

/-- C10: `createSession` returns the fixed initial session (status
`'counseling'`, callState `'onboarding'`, empty transcripts, both
completion flags false, all captured fields unset) and stores it under
`sessionId` unconditionally — whatever session was previously stored under
that id (name, transcripts, clone id, persona flags included) is replaced,
while every other key is untouched. -/
theorem createSession_spec (store : String → Option UserSession)
    (sessionId : String) (callId : Option String) (now : Nat) :
    (createSession store sessionId callId now).1 =
      initialUserSession sessionId callId now ∧
    (initialUserSession sessionId callId now).status = "counseling" ∧
    (initialUserSession sessionId callId now).callState = "onboarding" ∧
    (initialUserSession sessionId callId now).transcripts = [] ∧
    (initialUserSession sessionId callId now).voiceCloneCompleted = false ∧
    (initialUserSession sessionId callId now).futureSelfCreated = false ∧
    (initialUserSession sessionId callId now).userName = none ∧
    (initialUserSession sessionId callId now).problemDescription = none ∧
    (initialUserSession sessionId callId now).clonedVoiceId = none ∧
    (initialUserSession sessionId callId now).futureSelfAssistantId = none ∧
    (∀ k, (createSession store sessionId callId now).2 k =
      if k = sessionId then some (initialUserSession sessionId callId now)
      else store k) :=
  ⟨rfl, rfl, rfl, rfl, rfl, rfl, rfl, rfl, rfl, rfl, fun _ => rfl⟩

/-! ## Webhook `POST` validation (webhook/route.ts lines 410-439)

The handler parses the body with `req.json()`, logs
`Object.keys(body)` (line 418), requires a `message` envelope, then
requires `message.type` to be a truthy string
(`!type || typeof type !== 'string'`).  Only after these checks does it
dispatch on `type`; no session-store access happens before them.

The parsed body is any JSON value:
- the literal `null` is special: `Object.keys(null)` throws `TypeError`
  *before* the validation checks, and the outer catch — which only maps
  `SyntaxError` to 400 — answers it with a 500
  `"Webhook processing failed"`;
- every other value reaches the checks: a non-null non-object (number,
  string, boolean, array) coerces under `Object.keys` and its `.message`
  access yields `undefined`, behaving exactly like an object without a
  `message` field, so it is folded into `.obj none`.

A JSON value for the `type` field is either a string or some non-string
value (any non-string fails the `typeof` check; a falsy non-string also
fails `!type` — both land in the same rejection). -/

inductive JVal where
  | str (s : String)
  | nonStr (tag : Nat)
deriving DecidableEq

/-- The `message` envelope; only the `type` field decides validation. -/
structure WMessage where
  type : Option JVal
deriving DecidableEq

/-- A parsed webhook body: the JSON literal `null`, or an object-like
value with its optional `message` envelope. -/
inductive WBodyVal where
  | jnull
  | obj (message : Option WMessage)
deriving DecidableEq

inductive WebhookResponse where
  | badRequest (error : String)
  | serverError (error : String)
  | ok
deriving DecidableEq

/-- The `POST` handler of the webhook route over an abstract session store
`σ`: the `TypeError`-to-500 path for a `null` body, the two
structural-validation 400 rejections, then the dispatch (`switch (type)`
and everything after it), abstracted as `dispatch`.  All three
error paths return the store unchanged — the source touches
`sessionManager` only inside the dispatch. -/
def webhookPOST {σ : Type} (dispatch : String → σ → WebhookResponse × σ)
    (body : WBodyVal) (store : σ) : WebhookResponse × σ :=
  match body with
  | WBodyVal.jnull =>
      (WebhookResponse.serverError "Webhook processing failed", store)
  | WBodyVal.obj none =>
      (WebhookResponse.badRequest "No message field found", store)
  | WBodyVal.obj (some msg) =>
      match msg.type with
      | some (JVal.str t) =>
          if t.length = 0 then
            (WebhookResponse.badRequest
              "Missing or invalid type field in message", store)
          else dispatch t store
      | _ =>
          (WebhookResponse.badRequest
            "Missing or invalid type field in message", store)

/-- C7 counterexample: a body of JSON literal `null` is structurally
invalid (it has no `message` envelope), yet the handler does not return
the claimed 4xx-equivalent rejection: `Object.keys(body)` throws
`TypeError` before validation and the generic catch answers 500
`"Webhook processing failed"`. -/
theorem webhookPOST_null_counterexample :
    (webhookPOST (fun _ st => (WebhookResponse.ok, st + 1))
        WBodyVal.jnull 42).1 =
      WebhookResponse.serverError "Webhook processing failed" ∧
    ¬ ∃ err, (webhookPOST (fun _ st => (WebhookResponse.ok, st + 1))
        WBodyVal.jnull 42).1 = WebhookResponse.badRequest err := by
  constructor
  · rfl
  · rintro ⟨err, h⟩
    simp [webhookPOST] at h

/-- C7 (amended): for every dispatch continuation and every store, a
structurally invalid webhook body that parses to an *object-like* value —
no `message` envelope, or a `type` that is missing, a non-string, or the
empty string — is rejected with a 400 `badRequest` and the session store
is returned completely unchanged; a body parsing to JSON `null` instead
hits the `TypeError` at `Object.keys(body)` and is answered by the
generic catch with a 500 `"Webhook processing failed"` — still without
crashing the process (the handler is total) and still leaving the store
unchanged.  Only the 4xx-equivalence fails, and only for `null`. -/
theorem webhookPOST_malformed_handling {σ : Type}
    (dispatch : String → σ → WebhookResponse × σ) (store : σ) :
    webhookPOST dispatch WBodyVal.jnull store =
      (WebhookResponse.serverError "Webhook processing failed", store) ∧
    webhookPOST dispatch (WBodyVal.obj none) store =
      (WebhookResponse.badRequest "No message field found", store) ∧
    ∀ msg : WMessage, (∀ t, msg.type = some (JVal.str t) → t.length = 0) →
      (webhookPOST dispatch (WBodyVal.obj (some msg)) store).2 = store ∧
      ∃ err, (webhookPOST dispatch (WBodyVal.obj (some msg)) store).1 =
        WebhookResponse.badRequest err := by
  refine ⟨rfl, rfl, ?_⟩
  intro msg hty
  rcases htype : msg.type with _ | jv
  · simp [webhookPOST, htype]
  · cases jv with
    | str t =>
        have h0 : t.length = 0 := hty t htype
        simp [webhookPOST, htype, h0]
    | nonStr tag => simp [webhookPOST, htype]

/-- C7 witness: a body whose message has no `type` field, against a `Nat`
store with a dispatch that would mutate it. -/
theorem webhookPOST_malformed_handling_witness :
    (webhookPOST (fun _ st => (WebhookResponse.ok, st + 1))
        (WBodyVal.obj (some ⟨none⟩)) 42).2 = 42 ∧
    ∃ err, (webhookPOST (fun _ st => (WebhookResponse.ok, st + 1))
        (WBodyVal.obj (some ⟨none⟩)) 42).1 =
      WebhookResponse.badRequest err :=
  (webhookPOST_malformed_handling
    (fun _ st => (WebhookResponse.ok, st + 1)) 42).2.2 ⟨none⟩
    (fun t ht => Option.noConfusion ht)
/-! ## Sample-rate heuristic (`analyzeAudioFormat`, audioCapture.ts lines
860-891, and the constructor lines 669-680)

`analyzeAudioFormat` skips chunks under 1000 bytes, records up to 10 chunk
sizes, and — only while `sampleRateDetected` is still false — once at
least 5 sizes are recorded and all lie within 50 bytes of their mean, maps
the mean to a rate (≈3840 → 48000, ≈1920 → 24000, ≈1280 → 24000,
≈640 → 16000, otherwise 48000).  The floating-point mean comparisons
`|x - avg| < 50` are scaled to exact integer arithmetic
`|n*x - sum| < 50*n`.  The constructor, however, force-sets
`detectedSampleRate = 48000` and `sampleRateDetected = true`
("TEMPORARY: Force 48kHz for testing"), so the heuristic branch is
unreachable in every capture session. -/

structure FmtState where
  sampleRateDetected : Bool
  detectedSampleRate : Nat
  chunkSizeHistory : List Nat
deriving DecidableEq

/-- The constructor's fields: 24000 default overwritten by the forced
48 kHz testing override. -/
def initFmtState : FmtState :=
  { sampleRateDetected := true, detectedSampleRate := 48000,
    chunkSizeHistory := [] }

/-- `|a - b| < c` on naturals via integers (the source compares doubles). -/
def withinTol (a b tol : Int) : Bool := (a - b).natAbs < tol.natAbs

/-- `if (this.chunkSizeHistory.length < 10) this.chunkSizeHistory.push(...)`. -/
def pushHistory (s : FmtState) (len : Nat) : FmtState :=
  if s.chunkSizeHistory.length < 10 then
    { s with chunkSizeHistory := s.chunkSizeHistory ++ [len] }
  else s

/-- The `!this.sampleRateDetected && this.chunkSizeHistory.length >= 5`
block: consistency check against the mean and the chunk-size band
table. -/
def detectFromHistory (s : FmtState) : FmtState :=
  if ¬s.sampleRateDetected ∧ 5 ≤ s.chunkSizeHistory.length then
    let n : Int := s.chunkSizeHistory.length
    let sum : Int := (s.chunkSizeHistory.map fun x => (x : Int)).sum
    let isConsistent := s.chunkSizeHistory.all fun sz =>
      withinTol (sz * n) sum (50 * n)
    if isConsistent then
      let rate :=
        if withinTol sum (3840 * n) (50 * n) then 48000
        else if withinTol sum (1920 * n) (50 * n) then 24000
        else if withinTol sum (1280 * n) (50 * n) then 24000
        else if withinTol sum (640 * n) (50 * n) then 16000
        else 48000
      { s with sampleRateDetected := true, detectedSampleRate := rate }
    else s
  else s

/-- `analyzeAudioFormat(data)` state changes for one chunk of `len`
bytes: skip chunks under 1000 bytes, record the size, run detection. -/
def analyzeAudioFormat (s : FmtState) (len : Nat) : FmtState :=
  if len < 1000 then s else detectFromHistory (pushHistory s len)

/-- A metadata-free capture session's format analysis: fold the binary
chunk sizes from the constructor state. -/
def runAnalyze (lens : List Nat) : FmtState :=
  lens.foldl analyzeAudioFormat initFmtState

theorem pushHistory_detected (s : FmtState) (len : Nat) :
    (pushHistory s len).sampleRateDetected = s.sampleRateDetected ∧
    (pushHistory s len).detectedSampleRate = s.detectedSampleRate := by
  unfold pushHistory
  split <;> exact ⟨rfl, rfl⟩

theorem detectFromHistory_of_detected (s : FmtState)
    (h : s.sampleRateDetected = true) : detectFromHistory s = s := by
  unfold detectFromHistory
  rw [if_neg]
  simp [h]

theorem analyzeAudioFormat_detected (s : FmtState) (len : Nat)
    (h : s.sampleRateDetected = true) :
    (analyzeAudioFormat s len).sampleRateDetected = true ∧
    (analyzeAudioFormat s len).detectedSampleRate = s.detectedSampleRate := by
  unfold analyzeAudioFormat
  split
  · exact ⟨h, rfl⟩
  · obtain ⟨h1, h2⟩ := pushHistory_detected s len
    rw [detectFromHistory_of_detected _ (h1.trans h)]
    exact ⟨h1.trans h, h2⟩

/-- C8 counterexample: five consecutive 1920-byte chunks, for which the
claim's lookup table prescribes 24000 Hz; the session's detected rate is
48000 Hz instead, because the constructor's testing override pre-sets
`sampleRateDetected` and the table is never consulted. -/
theorem sampleRate_1920_counterexample :
    (runAnalyze [1920, 1920, 1920, 1920, 1920]).detectedSampleRate ≠
      24000 := by
  decide

/-- C8 (amended): the constructor force-sets `detectedSampleRate = 48000`
with `sampleRateDetected = true` (the "TEMPORARY: Force 48kHz for testing"
override), so for every capture session without sample-rate metadata the
chunk-size lookup table is dead code and the detected rate is 48000
regardless of the observed chunk sizes.  In particular stable 3840-byte
chunks yield 48000 (numerically agreeing with the claim's first table
band), while the other bands are never applied — chunks under 1000 bytes
(including the whole ≈640-byte band) are even skipped before any
bookkeeping. -/
theorem sampleRate_always_forced48k (lens : List Nat) :
    (runAnalyze lens).detectedSampleRate = 48000 ∧
    (runAnalyze lens).sampleRateDetected = true ∧
    (runAnalyze [3840, 3840, 3840, 3840, 3840]).detectedSampleRate
      = 48000 := by
  have hgen : ∀ (ls : List Nat) (s : FmtState),
      s.sampleRateDetected = true →
      (ls.foldl analyzeAudioFormat s).sampleRateDetected = true ∧
      (ls.foldl analyzeAudioFormat s).detectedSampleRate =
        s.detectedSampleRate := by
    intro ls
    induction ls with
    | nil => exact fun s h => ⟨h, rfl⟩
    | cons l ls ih =>
        intro s h
        obtain ⟨h1, h2⟩ := analyzeAudioFormat_detected s l h
        obtain ⟨h3, h4⟩ := ih _ h1
        exact ⟨h3, h4.trans h2⟩
  obtain ⟨hA, hB⟩ := hgen lens initFmtState rfl
  obtain ⟨-, hC⟩ := hgen [3840, 3840, 3840, 3840, 3840] initFmtState rfl
  exact ⟨hB, hA, hC⟩

/-! ## Clone dispatcher size validation
(`api/elevenlabs/clone-voice-realtime/route.ts` lines 14-51 and the PlayHT
iteration of the same route, lines 33-119)

Both handlers check required form fields, then provider credentials, then
the audio size.  The PlayHT iteration rejects sizes below 5000 bytes (and
above 50 MB) with a 400 *before* any provider call; the ElevenLabs
iteration — the one fetched by the webhook's `voiceCloneReady` handler —
only `console.warn`s for sizes below 50000 bytes and submits the request
to the provider regardless. -/

inductive DispatchResult where
  | badRequest (error : String)
  | serverError
  | providerSubmitted
deriving DecidableEq

/-- The ElevenLabs `POST` route up to the provider submission: field
check, API-key check; the `< 50000` and `> 50000000` size checks only log
warnings. -/
def elevenLabsClonePOST (fieldsPresent hasApiKey : Bool) (size : Nat) :
    DispatchResult :=
  if ¬fieldsPresent then
    DispatchResult.badRequest
      "Missing required fields: callId, userName, and audio file"
  else if ¬hasApiKey then DispatchResult.serverError
  else DispatchResult.providerSubmitted

/-- The PlayHT iteration of the route up to the provider submission:
field check, credentials check, then hard size bounds. -/
def playHTClonePOST (fieldsPresent hasCreds : Bool) (size : Nat) :
    DispatchResult :=
  if ¬fieldsPresent then
    DispatchResult.badRequest
      "Missing required fields: callId, userName, and audio file"
  else if ¬hasCreds then DispatchResult.serverError
  else if size < 5000 then
    DispatchResult.badRequest
      "Audio file too small. PlayHT requires minimum 5KB audio file."
  else if size > 50000000 then
    DispatchResult.badRequest
      "Audio file too large. PlayHT accepts maximum 50MB audio file."
  else DispatchResult.providerSubmitted

/-- C9 counterexample: a well-formed request with a 10000-byte audio
payload — far below the 50000-byte minimum the ElevenLabs route itself
documents — is submitted to the provider by the active (ElevenLabs)
dispatcher instead of being rejected with an insufficient-audio error. -/
theorem elevenLabsClone_no_small_reject :
    elevenLabsClonePOST true true 10000 =
      DispatchResult.providerSubmitted := by
  decide

/-- C9 (amended): only the PlayHT iteration of the dispatcher rejects
too-small samples before the provider call: with fields and credentials
present, any payload under the provider-documented 5000-byte minimum
yields a 400 insufficient-audio rejection and no provider submission.
The ElevenLabs route actually wired to the pipeline merely warns and
submits anyway (see the counterexample). -/
theorem playHTClone_rejects_small (size : Nat) (hsmall : size < 5000) :
    playHTClonePOST true true size =
      DispatchResult.badRequest
        "Audio file too small. PlayHT requires minimum 5KB audio file." ∧
    playHTClonePOST true true size ≠ DispatchResult.providerSubmitted := by
  constructor
  · simp [playHTClonePOST, hsmall]
  · simp [playHTClonePOST, hsmall]

/-- C9 witness: a 100-byte payload is rejected before any provider
call. -/
theorem playHTClone_rejects_small_witness :
    playHTClonePOST true true 100 =
      DispatchResult.badRequest
        "Audio file too small. PlayHT requires minimum 5KB audio file." ∧
    playHTClonePOST true true 100 ≠ DispatchResult.providerSubmitted :=
  playHTClone_rejects_small 100 (by norm_num)

end Phriend
